import Mathlib

/-!
# FreshBasket — verification of the cart/order workflow

Shallow embedding of the FreshBasket grocery-store application (`app.py`).
The relational store is a record of row lists; each Flask request handler
becomes a pure function from the store (plus the request data) to a new
store and an outcome.  Python `float` prices are modelled as rationals,
Python `int` quantities/stock as integers.  A handler whose `try:` block
commits takes an explicit `commitOk` flag: `commitOk = false` models the
commit raising, in which case the handler's `except:` branch rolls the
session back and the persisted store is unchanged.
-/

set_option autoImplicit false

/-- Outcomes a request handler can surface (spec §7 error taxonomy, plus
`InternalError` for an unhandled exception reaching the 500 handler, which
rolls the session back). -/
inductive Err where
  | NotFound
  | InsufficientStock
  | EmptyCart
  | ValidationError
  | Forbidden
  | SelfDemotionForbidden
  | StorageFailure
  | InternalError
  deriving DecidableEq, Repr

/-- Row of the `products` table (`app.py` lines 84-104); columns not read by
any handler under study (image, timestamps) are omitted. -/
structure Product where
  id : Nat
  name : String
  description : String
  category : String
  price : ℚ
  stock : ℤ
  is_available : Bool
  deriving DecidableEq, Repr

/-- Row of the `cart_items` table (`app.py` lines 107-122). -/
structure CartItem where
  id : Nat
  session_id : String
  product_id : Nat
  quantity : ℤ
  deriving DecidableEq, Repr

/-- Row of the `orders` table (`app.py` lines 125-147). -/
structure Order where
  id : Nat
  user_id : Nat
  total_amount : ℚ
  status : String
  shipping_address : String
  notes : String
  deriving DecidableEq, Repr

/-- Row of the `order_items` table (`app.py` lines 150-165). -/
structure OrderItem where
  order_id : Nat
  product_id : Nat
  quantity : ℤ
  price : ℚ
  deriving DecidableEq, Repr

/-- Row of the `users` table (`app.py` lines 55-81); only the columns the
handlers under study read. -/
structure User where
  id : Nat
  username : String
  is_admin : Bool
  deriving DecidableEq, Repr

/-- The persistent relational store. -/
structure DB where
  products : List Product
  cartItems : List CartItem
  orders : List Order
  orderItems : List OrderItem
  users : List User
  deriving DecidableEq, Repr

/-- `Product.query.get(pid)`: first row with the given primary key. -/
def findProduct (σ : DB) (pid : Nat) : Option Product :=
  σ.products.find? (fun p => p.id == pid)

/-- `CartItem.query.get(cid)`: first row with the given primary key. -/
def findCartItem (σ : DB) (cid : Nat) : Option CartItem :=
  σ.cartItems.find? (fun c => c.id == cid)

/-- `CartItem.query.filter_by(session_id, product_id).first()`. -/
def findCartItemByKey (σ : DB) (token : String) (pid : Nat) : Option CartItem :=
  σ.cartItems.find? (fun c => c.session_id == token && c.product_id == pid)

/-- `Order.query.get(oid)`. -/
def findOrder (σ : DB) (oid : Nat) : Option Order :=
  σ.orders.find? (fun o => o.id == oid)

/-- `User.query.get(uid)`. -/
def findUser (σ : DB) (uid : Nat) : Option User :=
  σ.users.find? (fun u => u.id == uid)

/-- `CartItem.query.filter_by(session_id=token).all()`. -/
def cartFor (σ : DB) (token : String) : List CartItem :=
  σ.cartItems.filter (fun c => c.session_id == token)

/-- Mutate the first row matching `p` (SQLAlchemy `.first()`/`.get()` fetch
followed by an in-place attribute assignment). -/
def updateFirst {α : Type} (p : α → Bool) (f : α → α) : List α → List α
  | [] => []
  | x :: xs => if p x then f x :: xs else x :: updateFirst p f xs

/-- Delete the first row matching `p` (`db.session.delete` of a fetched row). -/
def eraseFirst {α : Type} (p : α → Bool) : List α → List α
  | [] => []
  | x :: xs => if p x then xs else x :: eraseFirst p xs

/-- An unused autoincrement primary key for a list of existing ids. -/
def freshIdAux (ids : List Nat) : Nat :=
  ids.foldr (fun i m => max (i + 1) m) 1

/-- Fresh primary key for a new `cart_items` row. -/
def freshCartItemId (σ : DB) : Nat :=
  freshIdAux (σ.cartItems.map (fun c => c.id))

/-- Fresh primary key for a new `orders` row. -/
def freshOrderId (σ : DB) : Nat :=
  freshIdAux (σ.orders.map (fun o => o.id))

/-- `if quantity < 1: quantity = 1` (`app.py` lines 335-336, 374-375). -/
def clampQty (q : ℤ) : ℤ :=
  if q < 1 then 1 else q

/-- Is `needle` a prefix of `hay` (character lists)? -/
def isPrefixOfChars : List Char → List Char → Bool
  | [], _ => true
  | _ :: _, [] => false
  | c :: cs, d :: ds => c == d && isPrefixOfChars cs ds

/-- Does `hay` contain `needle` as a contiguous sublist? -/
def containsSub (needle : List Char) : List Char → Bool
  | [] => isPrefixOfChars needle []
  | d :: ds => isPrefixOfChars needle (d :: ds) || containsSub needle ds

/-- SQL `ilike '%needle%'`: case-insensitive substring match
(`app.py` lines 274-275). -/
def containsCI (hay needle : String) : Bool :=
  containsSub needle.toLower.data hay.toLower.data

/-- `GET /products` (`app.py` lines 262-284): filter available products by
category (unless the sentinel `"all"`) and, when a search string is present,
by case-insensitive substring match on name or description; the category
list shown alongside is `distinct()` over all products. -/
def products (σ : DB) (category : String) (search : String) :
    List Product × List String :=
  let query := σ.products.filter (fun p => p.is_available)
  let query := if category != "all"
    then query.filter (fun p => p.category == category) else query
  let query := if search != ""
    then query.filter (fun p =>
      containsCI p.name search || containsCI p.description search)
    else query
  (query, (σ.products.map (fun p => p.category)).dedup)

/-- `POST /cart/add/<product_id>` (`app.py` lines 329-365).  The caller's
session token is `token`.  The stock check compares only the newly
requested (clamped) quantity against stock; an existing row for
(token, product) is then incremented in place, otherwise a new row is
inserted. -/
def add_to_cart (σ : DB) (token : String) (product_id : Nat) (qtyReq : ℤ)
    (commitOk : Bool) : DB × Except Err Unit :=
  match findProduct σ product_id with
  | none => (σ, .error .NotFound)
  | some product =>
    let quantity := clampQty qtyReq
    if quantity > product.stock then (σ, .error .InsufficientStock)
    else
      let σ' := match findCartItemByKey σ token product_id with
        | some _ =>
          { σ with cartItems := (updateFirst
              (fun c => c.session_id == token && c.product_id == product_id)
              (fun c => { c with quantity := c.quantity + quantity })
              σ.cartItems) }
        | none =>
          { σ with cartItems := (σ.cartItems ++
              [{ id := freshCartItemId σ, session_id := token,
                 product_id := product_id, quantity := quantity }]) }
      if commitOk then (σ', .ok ()) else (σ, .error .StorageFailure)

/-- `POST /cart/update/<cart_item_id>` (`app.py` lines 368-389).
`callerToken` is the session token the request carries; the handler body
never reads it.  A missing product row would raise inside the handler and
reach the 500 handler, which rolls back (`InternalError`). -/
def update_cart_item (σ : DB) (callerToken : String) (cart_item_id : Nat)
    (qtyReq : ℤ) (commitOk : Bool) : DB × Except Err Unit :=
  match findCartItem σ cart_item_id with
  | none => (σ, .error .NotFound)
  | some cart_item =>
    let quantity := clampQty qtyReq
    match findProduct σ cart_item.product_id with
    | none => (σ, .error .InternalError)
    | some product =>
      if quantity > product.stock then (σ, .error .InsufficientStock)
      else if commitOk then
        ({ σ with cartItems := (updateFirst (fun c => c.id == cart_item_id)
            (fun c => { c with quantity := quantity }) σ.cartItems) },
         .ok ())
      else (σ, .error .StorageFailure)

/-- `POST /cart/remove/<cart_item_id>` (`app.py` lines 392-406).
`callerToken` is the session token the request carries; the handler body
never reads it (the product lookup models `cart_item.product.name`). -/
def remove_from_cart (σ : DB) (callerToken : String) (cart_item_id : Nat)
    (commitOk : Bool) : DB × Except Err Unit :=
  match findCartItem σ cart_item_id with
  | none => (σ, .error .NotFound)
  | some cart_item =>
    match findProduct σ cart_item.product_id with
    | none => (σ, .error .InternalError)
    | some _ =>
      if commitOk then
        ({ σ with cartItems := (eraseFirst (fun c => c.id == cart_item_id)
            σ.cartItems) },
         .ok ())
      else (σ, .error .StorageFailure)

/-- `total_amount = sum(item.get_subtotal() for item in cart_items)`
(`app.py` line 431, with `get_subtotal = product.price * quantity`);
`none` when some cart row's product is missing (an unhandled exception in
the source). -/
def cartTotal (σ : DB) : List CartItem → Option ℚ
  | [] => some 0
  | c :: cs =>
    match findProduct σ c.product_id, cartTotal σ cs with
    | some p, some t => some (p.price * (c.quantity : ℚ) + t)
    | _, _ => none

/-- The order-item loop of checkout (`app.py` lines 440-446): one
`OrderItem` per cart row, snapshotting the product's current price and the
cart quantity. -/
def orderSnapshot (σ : DB) (oid : Nat) : List CartItem → Option (List OrderItem)
  | [] => some []
  | c :: cs =>
    match findProduct σ c.product_id, orderSnapshot σ oid cs with
    | some p, some rest =>
      some ({ order_id := oid, product_id := c.product_id,
              quantity := c.quantity, price := p.price } :: rest)
    | _, _ => none

/-- `POST /checkout` (`app.py` lines 411-465).  Empty cart and blank
address fail before any write.  The try block creates the order row, the
snapshotted order items and deletes the cart rows for `token`; `txnOk =
false` models any exception inside the try block (order creation, item
creation, flush, cart clearing or commit), whose handler rolls the whole
transaction back. -/
def checkout (σ : DB) (token : String) (userId : Nat)
    (shipping_address : String) (notes : String) (txnOk : Bool) :
    DB × Except Err Order :=
  let cart_items := cartFor σ token
  if cart_items.isEmpty then (σ, .error .EmptyCart)
  else if shipping_address == "" then (σ, .error .ValidationError)
  else
    let oid := freshOrderId σ
    match cartTotal σ cart_items, orderSnapshot σ oid cart_items with
    | some total_amount, some items =>
      let order : Order :=
        { id := oid, user_id := userId, total_amount := total_amount,
          status := "pending", shipping_address := shipping_address,
          notes := notes }
      if txnOk then
        ({ σ with
            orders := σ.orders ++ [order],
            orderItems := σ.orderItems ++ items,
            cartItems := (σ.cartItems.filter
              (fun c => !(c.session_id == token))) },
         .ok order)
      else (σ, .error .StorageFailure)
    | _, _ => (σ, .error .InternalError)

/-- `GET /order/<order_id>` (`app.py` lines 468-479): 404 when the order is
missing, `Forbidden` when its owner is not the authenticated requester. -/
def order_confirmation (σ : DB) (currentUserId : Nat) (order_id : Nat) :
    Except Err Order :=
  match findOrder σ order_id with
  | none => .error .NotFound
  | some order =>
    if order.user_id != currentUserId then .error .Forbidden
    else .ok order

/-- The five admitted order statuses (`app.py` line 704). -/
def validStatuses : List String :=
  ["pending", "processing", "shipped", "delivered", "cancelled"]

/-- `POST /admin/orders/<order_id>/update-status` (`app.py` lines 696-715):
only one of the five enumerated statuses is written; anything else flashes
a validation error and writes nothing. -/
def admin_update_order_status (σ : DB) (order_id : Nat) (new_status : String)
    (commitOk : Bool) : DB × Except Err Unit :=
  match findOrder σ order_id with
  | none => (σ, .error .NotFound)
  | some _ =>
    if validStatuses.contains new_status then
      if commitOk then
        ({ σ with orders := (updateFirst (fun o => o.id == order_id)
            (fun o => { o with status := new_status }) σ.orders) },
         .ok ())
      else (σ, .error .StorageFailure)
    else (σ, .error .ValidationError)

/-- `POST /admin/users/<user_id>/toggle-admin` (`app.py` lines 727-747):
refuses to touch the acting admin's own account, otherwise flips the
target's `is_admin` flag. -/
def admin_toggle_admin (σ : DB) (currentUserId : Nat) (user_id : Nat)
    (commitOk : Bool) : DB × Except Err Unit :=
  if user_id == currentUserId then (σ, .error .SelfDemotionForbidden)
  else
    match findUser σ user_id with
    | none => (σ, .error .NotFound)
    | some _ =>
      if commitOk then
        ({ σ with users := (updateFirst (fun u => u.id == user_id)
            (fun u => { u with is_admin := !u.is_admin }) σ.users) },
         .ok ())
      else (σ, .error .StorageFailure)

/-- `POST /admin/products/edit/<product_id>` (`app.py` lines 601-650),
restricted to the scalar columns (the image-upload branch only affects
`image_url`, which no claim under study reads): overwrite the product row's
fields and commit. -/
def admin_edit_product (σ : DB) (product_id : Nat) (name description
    category : String) (price : ℚ) (stock : ℤ) (is_available : Bool)
    (commitOk : Bool) : DB × Except Err Unit :=
  match findProduct σ product_id with
  | none => (σ, .error .NotFound)
  | some _ =>
    if commitOk then
      ({ σ with products := (updateFirst (fun p => p.id == product_id)
          (fun p =>
            { p with
              name := name
              description := description
              category := category
              price := price
              stock := stock
              is_available := is_available }) σ.products) },
       .ok ())
    else (σ, .error .StorageFailure)

/-- A sample product (cf. the seeded catalog). -/
def exApple : Product :=
  { id := 1, name := "Red Apples", description := "Fresh, crisp red apples",
    category := "fruit", price := 6, stock := 5, is_available := true }

/-- A second sample product, unavailable, in another category. -/
def exCarrot : Product :=
  { id := 2, name := "Carrots", description := "Organic carrots",
    category := "vegetable", price := 4, stock := 80, is_available := false }

/-- A small concrete store used to instantiate the theorems: two products,
one cart row for session "sess", one placed order owned by user 7, and two
users (7 is an admin, 8 is not). -/
def exDB : DB :=
  { products := [exApple, exCarrot],
    cartItems := [{ id := 1, session_id := "sess", product_id := 1, quantity := 4 }],
    orders := [{ id := 1, user_id := 7, total_amount := 12, status := "pending",
                 shipping_address := "10 Elm St", notes := "" }],
    orderItems := [{ order_id := 1, product_id := 1, quantity := 2, price := 6 }],
    users := [{ id := 7, username := "alice", is_admin := true },
              { id := 8, username := "bob", is_admin := false }] }

theorem find?_updateFirst {α : Type} (p : α → Bool) (f : α → α)
    {l : List α} {c : α} (h : l.find? p = some c) (hf : p (f c) = true) :
    (updateFirst p f l).find? p = some (f c) := by
  induction l with
  | nil => simp [List.find?] at h
  | cons x xs ih =>
    by_cases hx : p x
    · rw [List.find?_cons_of_pos _ hx] at h
      cases h
      simp [updateFirst, hx, List.find?_cons_of_pos _ hf]
    · rw [List.find?_cons_of_neg _ (by simp [hx])] at h
      simp only [updateFirst, if_neg hx]
      rw [List.find?_cons_of_neg _ (by simp [hx])]
      exact ih h

theorem mem_updateFirst {α : Type} (p : α → Bool) (f : α → α)
    {l : List α} {a : α} (h : a ∈ updateFirst p f l) :
    (∃ b ∈ l, a = f b) ∨ a ∈ l := by
  induction l with
  | nil => simp [updateFirst] at h
  | cons x xs ih =>
    by_cases hx : p x
    · simp only [updateFirst, if_pos hx] at h
      rcases List.mem_cons.mp h with h1 | h1
      · exact Or.inl ⟨x, List.mem_cons_self x xs, h1⟩
      · exact Or.inr (List.mem_cons_of_mem x h1)
    · simp only [updateFirst, if_neg hx] at h
      rcases List.mem_cons.mp h with h1 | h1
      · exact Or.inr (h1 ▸ List.mem_cons_self x xs)
      · rcases ih h1 with ⟨b, hb, hab⟩ | h2
        · exact Or.inl ⟨b, List.mem_cons_of_mem x hb, hab⟩
        · exact Or.inr (List.mem_cons_of_mem x h2)

theorem lt_freshIdAux {i : Nat} {ids : List Nat} (h : i ∈ ids) :
    i < freshIdAux ids := by
  induction ids with
  | nil => cases h
  | cons j js ih =>
    rcases List.mem_cons.mp h with h1 | h1
    · subst h1
      exact lt_of_lt_of_le (Nat.lt_succ_self i) (le_max_left _ _)
    · exact lt_of_lt_of_le (ih h1) (le_max_right _ _)

theorem order_id_lt_freshOrderId {σ : DB} {o : Order} (h : o ∈ σ.orders) :
    o.id < freshOrderId σ :=
  lt_freshIdAux (List.mem_map_of_mem (fun o => o.id) h)

theorem orderSnapshot_order_id {σ : DB} {oid : Nat} :
    ∀ {l : List CartItem} {items : List OrderItem},
      orderSnapshot σ oid l = some items → ∀ i ∈ items, i.order_id = oid := by
  intro l
  induction l with
  | nil =>
    intro items h i hi
    simp only [orderSnapshot, Option.some.injEq] at h
    subst h
    cases hi
  | cons c cs ih =>
    intro items h i hi
    rw [orderSnapshot] at h
    cases hp : findProduct σ c.product_id with
    | none => rw [hp] at h; cases h
    | some p =>
      rw [hp] at h
      cases hs : orderSnapshot σ oid cs with
      | none => rw [hs] at h; cases h
      | some rest =>
        rw [hs] at h
        simp only [Option.some.injEq] at h
        subst h
        rcases List.mem_cons.mp hi with h1 | h1
        · subst h1; rfl
        · exact ih hs i h1

theorem orderSnapshot_sum {σ : DB} {oid : Nat} :
    ∀ {l : List CartItem} {t : ℚ} {items : List OrderItem},
      cartTotal σ l = some t → orderSnapshot σ oid l = some items →
      ((items.map (fun i => i.price * (i.quantity : ℚ))).sum = t) := by
  intro l
  induction l with
  | nil =>
    intro t items ht hs
    simp only [cartTotal, Option.some.injEq] at ht
    simp only [orderSnapshot, Option.some.injEq] at hs
    subst ht; subst hs
    simp
  | cons c cs ih =>
    intro t items ht hs
    rw [cartTotal] at ht
    rw [orderSnapshot] at hs
    cases hp : findProduct σ c.product_id with
    | none => rw [hp] at ht; cases ht
    | some p =>
      rw [hp] at ht hs
      cases ht2 : cartTotal σ cs with
      | none => rw [ht2] at ht; cases ht
      | some t2 =>
        rw [ht2] at ht
        cases hs2 : orderSnapshot σ oid cs with
        | none => rw [hs2] at hs; cases hs
        | some rest =>
          rw [hs2] at hs
          simp only [Option.some.injEq] at ht hs
          subst ht; subst hs
          simp only [List.map_cons, List.sum_cons]
          rw [ih ht2 hs2]

theorem orderSnapshot_forall₂ {σ : DB} {oid : Nat} :
    ∀ {l : List CartItem} {items : List OrderItem},
      orderSnapshot σ oid l = some items →
      List.Forall₂ (fun (c : CartItem) (i : OrderItem) =>
          i.product_id = c.product_id ∧ i.quantity = c.quantity ∧
          ∃ p, findProduct σ c.product_id = some p ∧ i.price = p.price)
        l items := by
  intro l
  induction l with
  | nil =>
    intro items h
    simp only [orderSnapshot, Option.some.injEq] at h
    subst h
    exact List.Forall₂.nil
  | cons c cs ih =>
    intro items h
    rw [orderSnapshot] at h
    cases hp : findProduct σ c.product_id with
    | none => rw [hp] at h; cases h
    | some p =>
      rw [hp] at h
      cases hs : orderSnapshot σ oid cs with
      | none => rw [hs] at h; cases h
      | some rest =>
        rw [hs] at h
        simp only [Option.some.injEq] at h
        subst h
        exact List.Forall₂.cons ⟨rfl, rfl, p, hp, rfl⟩ (ih hs)

/-- Claim C1: `placeOrder` (the `checkout` POST handler) is atomic — whenever
the call fails, whether before the transaction (empty cart, blank address,
missing product row) or because any exception is raised inside the try block
(order creation, order-item creation, cart clearing, commit), the persisted
store is exactly the pre-call store: no Order row, no OrderItem row and no
cart deletion persist, and the cart rows for the token are unchanged. -/
theorem checkout_atomic (σ : DB) (token : String) (userId : Nat)
    (shipping_address notes : String) (txnOk : Bool) (e : Err)
    (h : (checkout σ token userId shipping_address notes txnOk).snd = .error e) :
    (checkout σ token userId shipping_address notes txnOk).fst = σ ∧
    cartFor (checkout σ token userId shipping_address notes txnOk).fst token
      = cartFor σ token ∧
    (checkout σ token userId shipping_address notes txnOk).fst.orders = σ.orders ∧
    (checkout σ token userId shipping_address notes txnOk).fst.orderItems
      = σ.orderItems := by
  have hfst : (checkout σ token userId shipping_address notes txnOk).fst = σ := by
    by_cases h1 : (cartFor σ token).isEmpty
    · simp [checkout, h1]
    · by_cases h2 : shipping_address == ""
      · simp [checkout, h1, h2]
      · cases h3 : cartTotal σ (cartFor σ token) with
        | none => simp [checkout, h1, h2, h3]
        | some t =>
          cases h4 : orderSnapshot σ (freshOrderId σ) (cartFor σ token) with
          | none => simp [checkout, h1, h2, h3, h4]
          | some items =>
            cases txnOk with
            | false => simp [checkout, h1, h2, h3, h4]
            | true =>
              exfalso
              simp [checkout, h1, h2, h3, h4] at h
  exact ⟨hfst, by rw [hfst], by rw [hfst], by rw [hfst]⟩

/-- Witness for C1: on the concrete store, a commit failure during checkout
leaves every table as it was. -/
theorem checkout_atomic_witness :
    (checkout exDB "sess" 7 "123 Main St" "" false).fst = exDB ∧
    cartFor (checkout exDB "sess" 7 "123 Main St" "" false).fst "sess"
      = cartFor exDB "sess" :=
  ⟨(checkout_atomic exDB "sess" 7 "123 Main St" "" false .StorageFailure (by rfl)).1,
   (checkout_atomic exDB "sess" 7 "123 Main St" "" false .StorageFailure (by rfl)).2.1⟩

/-- Claim C2: for every successful checkout, the created Order's
`total_amount` equals the sum over its OrderItems of price × quantity, and
those OrderItems snapshot, row by row, the cart items' product price and
cart quantity at placement time (assuming the store's order-item rows all
reference an existing order, as the foreign key guarantees). -/
theorem checkout_total (σ : DB) (token : String) (userId : Nat)
    (shipping_address notes : String) (σ' : DB) (order : Order)
    (wf : ∀ i ∈ σ.orderItems, ∃ o ∈ σ.orders, i.order_id = o.id)
    (h : checkout σ token userId shipping_address notes true = (σ', .ok order)) :
    order.total_amount =
      ((σ'.orderItems.filter (fun i => i.order_id == order.id)).map
        (fun i => i.price * (i.quantity : ℚ))).sum ∧
    List.Forall₂ (fun (c : CartItem) (i : OrderItem) =>
        i.product_id = c.product_id ∧ i.quantity = c.quantity ∧
        ∃ p, findProduct σ c.product_id = some p ∧ i.price = p.price)
      (cartFor σ token)
      (σ'.orderItems.filter (fun i => i.order_id == order.id)) := by
  by_cases h1 : (cartFor σ token).isEmpty
  · simp [checkout, h1] at h
  · by_cases h2 : shipping_address == ""
    · simp [checkout, h1, h2] at h
    · cases h3 : cartTotal σ (cartFor σ token) with
      | none => simp [checkout, h1, h2, h3] at h
      | some t =>
        cases h4 : orderSnapshot σ (freshOrderId σ) (cartFor σ token) with
        | none => simp [checkout, h1, h2, h3, h4] at h
        | some items =>
          rw [checkout] at h
          simp only [h1, h2, h3, h4, if_true, if_neg, Bool.false_eq_true,
            ite_false, Prod.mk.injEq, Except.ok.injEq] at h
          obtain ⟨hσ, ho⟩ := h
          have hnil : σ.orderItems.filter
              (fun i => i.order_id == order.id) = [] := by
            rw [List.filter_eq_nil_iff]
            intro i hi
            obtain ⟨o, ho2, hoi⟩ := wf i hi
            have := order_id_lt_freshOrderId ho2
            simp only [← ho, hoi, beq_iff_eq]
            omega
          have hself : items.filter (fun i => i.order_id == order.id) = items := by
            rw [List.filter_eq_self]
            intro i hi
            have := orderSnapshot_order_id h4 i hi
            simp [this, ← ho]
          have hfilter : σ'.orderItems.filter (fun i => i.order_id == order.id)
              = items := by
            rw [← hσ]
            simp only [List.filter_append, hnil, hself, List.nil_append]
          constructor
          · rw [hfilter, ← ho]
            exact (orderSnapshot_sum h3 h4).symm
          · rw [hfilter]
            exact orderSnapshot_forall₂ h4

/-- The total 6 × 4 of the successful concrete checkout below, written as
`cartTotal` builds it. -/
def exTotal : ℚ := exApple.price * ((4 : ℤ) : ℚ) + 0

/-- The order created by the successful concrete checkout below. -/
def exOrderPlaced : Order :=
  { id := 2, user_id := 7, total_amount := exTotal, status := "pending",
    shipping_address := "123 Main St", notes := "" }

/-- The store produced by the successful concrete checkout below. -/
def exDBAfterCheckout : DB :=
  { products := [exApple, exCarrot],
    cartItems := [],
    orders := [{ id := 1, user_id := 7, total_amount := 12, status := "pending",
                 shipping_address := "10 Elm St", notes := "" }, exOrderPlaced],
    orderItems := [{ order_id := 1, product_id := 1, quantity := 2, price := 6 },
                   { order_id := 2, product_id := 1, quantity := 4, price := 6 }],
    users := [{ id := 7, username := "alice", is_admin := true },
              { id := 8, username := "bob", is_admin := false }] }

/-- Witness for C2 at the concrete store: the placed order's total 24 is
the sum of its single order item's price × quantity (6 × 4). -/
theorem checkout_total_witness :
    exOrderPlaced.total_amount =
      ((exDBAfterCheckout.orderItems.filter
          (fun i => i.order_id == exOrderPlaced.id)).map
        (fun i => i.price * (i.quantity : ℚ))).sum :=
  (checkout_total exDB "sess" 7 "123 Main St" "" exDBAfterCheckout exOrderPlaced
    (by decide) (by rfl)).1

/-- Claim C3 (divergence evidence): with stock 5 and an existing cart row of
quantity 4 for the same (token, product), requesting 3 more makes the
combined total 7 exceed the stock, yet `add_to_cart` succeeds and stores
quantity 7 — the stock check (`app.py` line 338) compares only the newly
requested quantity against stock, never the combined total the claim
requires to be validated. -/
theorem add_to_cart_combined_total_bug :
    (4 : ℤ) + 3 > exApple.stock ∧
    add_to_cart exDB "sess" 1 3 true =
      ({ exDB with cartItems :=
          [{ id := 1, session_id := "sess", product_id := 1, quantity := 7 }] },
       .ok ()) := by
  constructor
  · decide
  · rfl

/-- Claim C4: price snapshots are frozen — an admin product edit (in
particular any later change to a product's price) leaves the `order_items`
table, and with it every existing OrderItem's price, untouched, whatever
the arguments and the outcome; OrderItem.price stays decoupled from the
product's live price. -/
theorem orderItem_price_frozen (σ : DB) (pid : Nat)
    (name description category : String) (price : ℚ) (stock : ℤ)
    (av ok : Bool) :
    ((admin_edit_product σ pid name description category price stock
        av ok).fst).orderItems = σ.orderItems ∧
    ((admin_edit_product σ pid name description category price stock
        av ok).fst).orders = σ.orders := by
  cases h : findProduct σ pid <;> cases ok <;> simp [admin_edit_product, h]

/-- Claim C5: `update_cart_item` fails with NotFound when no cart item with
the id exists; otherwise it clamps the requested quantity to a minimum of 1,
fails with InsufficientStock — leaving the stored quantity unchanged — when
the clamped quantity exceeds the item's product's current stock, and on
success overwrites the stored quantity with the clamped request. -/
theorem update_cart_item_spec (σ : DB) (tok : String) (cid : Nat) (q : ℤ) :
    (findCartItem σ cid = none →
      ∀ ok, update_cart_item σ tok cid q ok = (σ, .error .NotFound)) ∧
    (∀ c p, findCartItem σ cid = some c → findProduct σ c.product_id = some p →
      (clampQty q > p.stock →
        ∀ ok, update_cart_item σ tok cid q ok = (σ, .error .InsufficientStock)) ∧
      (¬clampQty q > p.stock →
        (update_cart_item σ tok cid q true).snd = .ok () ∧
        findCartItem (update_cart_item σ tok cid q true).fst cid
          = some { c with quantity := clampQty q })) := by
  refine ⟨?_, ?_⟩
  · intro h ok
    simp [update_cart_item, h]
  · intro c p hc hp
    refine ⟨?_, ?_⟩
    · intro hs ok
      simp [update_cart_item, hc, hp, hs]
    · intro hs
      constructor
      · simp [update_cart_item, hc, hp, hs]
      · have hone : (update_cart_item σ tok cid q true).fst =
            { σ with cartItems := (updateFirst (fun c' => c'.id == cid)
                (fun c' => { c' with quantity := clampQty q }) σ.cartItems) } := by
          simp [update_cart_item, hc, hp, hs]
        rw [hone]
        unfold findCartItem at hc ⊢
        have hpc : (fun c' : CartItem => c'.id == cid)
            ({ c with quantity := clampQty q }) = true := by
          simpa using List.find?_some hc
        exact find?_updateFirst (fun c' : CartItem => c'.id == cid)
          (fun c' : CartItem => { c' with quantity := clampQty q }) hc hpc

/-- Witness for C5 on the concrete store: quantity 9 exceeds stock 5 and is
rejected with the store unchanged; quantity 2 is accepted and stored. -/
theorem update_cart_item_spec_witness :
    update_cart_item exDB "other" 1 9 true = (exDB, .error .InsufficientStock) ∧
    findCartItem (update_cart_item exDB "other" 1 2 true).fst 1
      = some { id := 1, session_id := "sess", product_id := 1, quantity := 2 } := by
  constructor
  · exact ((update_cart_item_spec exDB "other" 1 9).2
      ⟨1, "sess", 1, 4⟩ exApple (by rfl) (by rfl)).1 (by decide) true
  · exact (((update_cart_item_spec exDB "other" 1 2).2
      ⟨1, "sess", 1, 4⟩ exApple (by rfl) (by rfl)).2 (by decide)).2

/-- Claim C6: the products listing returns exactly the available products
that pass the category filter (unless the sentinel "all") and, when a
search string is present, contain it as a case-insensitive substring of
their name or description; the distinct category list it also returns
ranges over all products, available or not. -/
theorem products_spec (σ : DB) (category search : String) (p : Product)
    (c : String) :
    (p ∈ (products σ category search).fst ↔
      p ∈ σ.products ∧ p.is_available = true ∧
      (category = "all" ∨ p.category = category) ∧
      (search = "" ∨ containsCI p.name search = true ∨
        containsCI p.description search = true)) ∧
    (c ∈ (products σ category search).snd ↔
      ∃ q ∈ σ.products, q.category = c) := by
  constructor
  · by_cases hc : category = "all" <;> by_cases hs : search = "" <;>
      simp [products, hc, hs, List.mem_filter, and_assoc, beq_iff_eq] <;>
      tauto
  · simp [products, List.mem_dedup, List.mem_map]

/-- Claim C7: reading an order back requires ownership — with the order
present, a requester whose id differs from the order's `user_id` gets
Forbidden, and the owner gets the order. -/
theorem order_confirmation_owner (σ : DB) (uid oid : Nat) (order : Order)
    (h : findOrder σ oid = some order) :
    (order.user_id ≠ uid → order_confirmation σ uid oid = .error .Forbidden) ∧
    (order.user_id = uid → order_confirmation σ uid oid = .ok order) := by
  constructor <;> intro h2 <;> simp [order_confirmation, h, h2]

/-- Witness for C7 on the concrete store: user 8 is refused order 1 (owned
by user 7); user 7 reads it back. -/
theorem order_confirmation_owner_witness :
    order_confirmation exDB 8 1 = .error .Forbidden ∧
    order_confirmation exDB 7 1 = .ok
      { id := 1, user_id := 7, total_amount := 12, status := "pending",
        shipping_address := "10 Elm St", notes := "" } :=
  ⟨(order_confirmation_owner exDB 8 1
      { id := 1, user_id := 7, total_amount := 12, status := "pending",
        shipping_address := "10 Elm St", notes := "" } (by rfl)).1 (by decide),
   (order_confirmation_owner exDB 7 1
      { id := 1, user_id := 7, total_amount := 12, status := "pending",
        shipping_address := "10 Elm St", notes := "" } (by rfl)).2 rfl⟩

/-- Claim C8: the admin status update accepts exactly the five enumerated
values — any other value fails with ValidationError leaving the store
unchanged, an accepted value is persisted on the order, and the invariant
that every persisted status is one of the five is preserved by every call. -/
theorem admin_update_order_status_spec (σ : DB) (oid : Nat) (s : String) :
    (∀ o, findOrder σ oid = some o → s ∉ validStatuses →
      ∀ ok, admin_update_order_status σ oid s ok
        = (σ, .error .ValidationError)) ∧
    (∀ o, findOrder σ oid = some o → s ∈ validStatuses →
      (admin_update_order_status σ oid s true).snd = .ok () ∧
      findOrder (admin_update_order_status σ oid s true).fst oid
        = some { o with status := s }) ∧
    (∀ ok, (∀ o ∈ σ.orders, o.status ∈ validStatuses) →
      ∀ o ∈ (admin_update_order_status σ oid s ok).fst.orders,
        o.status ∈ validStatuses) := by
  refine ⟨?_, ?_, ?_⟩
  · intro o ho hs ok
    simp [admin_update_order_status, ho, hs]
  · intro o ho hs
    constructor
    · simp [admin_update_order_status, ho, hs]
    · have hone : (admin_update_order_status σ oid s true).fst =
          { σ with orders := (updateFirst (fun o' => o'.id == oid)
              (fun o' => { o' with status := s }) σ.orders) } := by
        simp [admin_update_order_status, ho, hs]
      rw [hone]
      unfold findOrder at ho ⊢
      have hpo : (fun o' : Order => o'.id == oid)
          ({ o with status := s }) = true := by
        simpa using List.find?_some ho
      exact find?_updateFirst (fun o' : Order => o'.id == oid)
        (fun o' : Order => { o' with status := s }) ho hpo
  · intro ok hall o ho
    by_cases h1 : findOrder σ oid = none
    · rw [show (admin_update_order_status σ oid s ok).fst = σ by
        simp [admin_update_order_status, h1]] at ho
      exact hall o ho
    · obtain ⟨o0, ho0⟩ := Option.ne_none_iff_exists'.mp h1
      by_cases hs : s ∈ validStatuses
      · cases ok with
        | false =>
          rw [show (admin_update_order_status σ oid s false).fst = σ by
            simp [admin_update_order_status, ho0, hs]] at ho
          exact hall o ho
        | true =>
          rw [show (admin_update_order_status σ oid s true).fst =
              { σ with orders := (updateFirst (fun o' => o'.id == oid)
                  (fun o' => { o' with status := s }) σ.orders) } by
            simp [admin_update_order_status, ho0, hs]] at ho
          rcases mem_updateFirst _ _ ho with ⟨b, hb, hob⟩ | hmem
          · subst hob
            simpa using hs
          · exact hall o hmem
      · rw [show (admin_update_order_status σ oid s ok).fst = σ by
          simp [admin_update_order_status, ho0, hs]] at ho
        exact hall o ho

/-- Witness for C8 on the concrete store: the value "weird" is rejected with
the store unchanged; "shipped" is accepted and persisted; the five-status
invariant holds after the call. -/
theorem admin_update_order_status_spec_witness :
    admin_update_order_status exDB 1 "weird" true
      = (exDB, .error .ValidationError) ∧
    findOrder (admin_update_order_status exDB 1 "shipped" true).fst 1
      = some { id := 1, user_id := 7, total_amount := 12, status := "shipped",
               shipping_address := "10 Elm St", notes := "" } :=
  ⟨(admin_update_order_status_spec exDB 1 "weird").1
      { id := 1, user_id := 7, total_amount := 12, status := "pending",
        shipping_address := "10 Elm St", notes := "" }
      (by rfl) (by decide) true,
   ((admin_update_order_status_spec exDB 1 "shipped").2.1
      { id := 1, user_id := 7, total_amount := 12, status := "pending",
        shipping_address := "10 Elm St", notes := "" }
      (by rfl) (by decide)).2⟩

/-- Claim C9: the role toggle refuses the acting admin's own account with
SelfDemotionForbidden and no change; any other existing target user's
`is_admin` flag becomes the negation of its previous value. -/
theorem admin_toggle_admin_spec (σ : DB) (me target : Nat) :
    (target = me → ∀ ok, admin_toggle_admin σ me target ok
        = (σ, .error .SelfDemotionForbidden)) ∧
    (∀ u, target ≠ me → findUser σ target = some u →
      (admin_toggle_admin σ me target true).snd = .ok () ∧
      findUser (admin_toggle_admin σ me target true).fst target
        = some { u with is_admin := !u.is_admin }) := by
  constructor
  · intro h ok
    simp [admin_toggle_admin, h]
  · intro u hne hu
    constructor
    · simp [admin_toggle_admin, hne, hu]
    · have hone : (admin_toggle_admin σ me target true).fst =
          { σ with users := (updateFirst (fun u' => u'.id == target)
              (fun u' => { u' with is_admin := !u'.is_admin }) σ.users) } := by
        simp [admin_toggle_admin, hne, hu]
      rw [hone]
      unfold findUser at hu ⊢
      have hpu : (fun u' : User => u'.id == target)
          ({ u with is_admin := !u.is_admin }) = true := by
        simpa using List.find?_some hu
      exact find?_updateFirst (fun u' : User => u'.id == target)
        (fun u' : User => { u' with is_admin := !u'.is_admin }) hu hpu

/-- Witness for C9 on the concrete store: admin 7 cannot toggle itself; 7
toggling user 8 flips `is_admin` from false to true. -/
theorem admin_toggle_admin_spec_witness :
    admin_toggle_admin exDB 7 7 true = (exDB, .error .SelfDemotionForbidden) ∧
    findUser (admin_toggle_admin exDB 7 8 true).fst 8
      = some { id := 8, username := "bob", is_admin := true } :=
  ⟨(admin_toggle_admin_spec exDB 7 7).1 rfl true,
   ((admin_toggle_admin_spec exDB 7 8).2
      { id := 8, username := "bob", is_admin := false }
      (by decide) (by rfl)).2⟩

/-- Claim C10: cart item update and removal never compare the caller's
session token against the targeted row — their results are identical for
every pair of caller tokens, and both succeed for an existing row even when
the caller's token differs from the row's own `session_id`. -/
theorem cart_mutation_ignores_session (σ : DB) (t t' : String) (cid : Nat)
    (q : ℤ) (ok : Bool) :
    update_cart_item σ t cid q ok = update_cart_item σ t' cid q ok ∧
    remove_from_cart σ t cid ok = remove_from_cart σ t' cid ok ∧
    (∀ c p, findCartItem σ cid = some c → findProduct σ c.product_id = some p →
      c.session_id ≠ t → ¬clampQty q > p.stock →
      (update_cart_item σ t cid q true).snd = .ok () ∧
      (remove_from_cart σ t cid true).snd = .ok ()) := by
  refine ⟨rfl, rfl, ?_⟩
  intro c p hc hp _ hs
  constructor
  · simp [update_cart_item, hc, hp, hs]
  · simp [remove_from_cart, hc, hp]

/-- Witness for C10 on the concrete store: the caller holding token "other"
updates and removes cart row 1, which belongs to session "sess". -/
theorem cart_mutation_ignores_session_witness :
    (update_cart_item exDB "other" 1 2 true).snd = .ok () ∧
    (remove_from_cart exDB "other" 1 true).snd = .ok () :=
  (cart_mutation_ignores_session exDB "other" "sess" 1 2 true).2.2
    ⟨1, "sess", 1, 4⟩ exApple (by rfl) (by rfl) (by decide) (by decide)
